import Mathlib

/-!
# Crystal Dock: the `MultiDockView` coordinator

A shallow embedding of `src/view/multi_dock_view.cc`.

The coordinator is glue over external collaborators (the dock model, the
window system, the desktop-environment wallpaper backend, Qt dialogs). Each
collaborator the code *reads* is a field of `Env`; each collaborator the code
*acts on* is recorded as an `Event`. Every embedded member function returns its
C++ return value together with the list of events it emitted, in program order.
The collaborators are read as fixed for the duration of one call.
-/

namespace crystaldock

/-- The panel object built by `std::make_unique<DockPanel>(this, model_, dockId)`:
it is identified by the dock id it was constructed for. -/
structure DockPanel where
  dockId : Int
  deriving DecidableEq, Repr

/-- Observable actions of the coordinator on its collaborators. -/
inductive Event where
  /-- `QMessageBox::critical(nullptr, title, text)` -/
  | criticalBox (title text : String)
  /-- `WindowSystem::init(display)` -/
  | windowSystemInit (display : Nat)
  /-- `model_->wallpaper(desktop, screen)` -/
  | wallpaperQuery (desktop : String) (screen : Int)
  /-- `QMessageBox warning(QMessageBox::Warning, title, text, ...); warning.exec()` -/
  | warningBox (title text : String)
  /-- `desktopEnv_->setWallpaper(screen, path)` -/
  | backendSetWallpaper (screen : Int) (path : String)
  /-- `std::make_unique<DockPanel>(this, model_, dockId)` -/
  | panelCreate (dockId : Int)
  /-- `panel->show()` -/
  | panelShow (panel : DockPanel)
  /-- `panel->close()` -/
  | panelClose (panel : DockPanel)
  /-- `AddPanelDialog dialog(nullptr, model_, 0); dialog.setMode(Welcome); dialog.exec()` -/
  | welcomeDialogExec
  deriving DecidableEq, Repr

/-- What the coordinator reads from its collaborators. -/
structure Env where
  /-- `model_->hasPager()` -/
  hasPager : Bool
  /-- `model_->dockCount()` -/
  dockCount : Int
  /-- `model_->wallpaper(desktop, screen)` -/
  wallpaper : String → Int → String
  /-- `WindowSystem::currentDesktop()` -/
  currentDesktop : String
  /-- `WindowSystem::screens().size()` -/
  screens : Nat
  /-- `QFile::exists(path)` -/
  fileExists : String → Bool
  /-- the result of `desktopEnv_->setWallpaper(screen, path)` -/
  backend : Int → String → Bool

/-- The `QNativeInterface::QWaylandApplication` interface: all the code uses of it
is `display()`. -/
structure QWaylandApplication where
  display : Nat
  deriving DecidableEq, Repr

/-- What `checkPlatformSupported` reads from the application: the platform name
and the (possibly null) Wayland native interface. -/
structure QApplication where
  /-- `QGuiApplication::platformName()` -/
  platformName : String
  /-- `app.nativeInterface<QNativeInterface::QWaylandApplication>()`, `none` for `nullptr` -/
  nativeInterface : Option QWaylandApplication

/-- The text of the critical message box of `checkPlatformSupported`. -/
def unsupportedPlatformText : String :=
  "Crystal Dock 2.x only supports Wayland.\nFor X11, please use Crystal Dock 1.x"

/-- `MultiDockView::checkPlatformSupported(app)`. The library functions
`QString::toLower` and `WindowSystem::init` are parameters. -/
def MultiDockView.checkPlatformSupported (toLower : String → String) (init : Nat → Bool)
    (app : QApplication) : Bool × List Event :=
  if toLower app.platformName ≠ "wayland" then
    (false, [Event.criticalBox "Unsupported Platform" unsupportedPlatformText])
  else
    match app.nativeInterface with
    | none => (false, [])
    | some waylandApp => (init waylandApp.display, [Event.windowSystemInit waylandApp.display])

/-- `MultiDockView::setWallpaper(int screen)`. -/
def MultiDockView.setWallpaperInt (w : Env) (screen : Int) : Bool × List Event :=
  if !w.hasPager then
    (false, [])
  else
    let wallpaper := w.wallpaper w.currentDesktop screen
    let query := Event.wallpaperQuery w.currentDesktop screen
    if wallpaper.isEmpty then
      (false, [query])
    else if !w.fileExists wallpaper then
      (false, [query, Event.warningBox "Error" ("Failed to load wallpaper from: " ++ wallpaper)])
    else
      (w.backend screen wallpaper, [query, Event.backendSetWallpaper screen wallpaper])

/-- Conversion of the `unsigned int` loop counter to the `int` parameter of
`setWallpaper(int)`: the value modulo `2^32`, read as two's complement. -/
def toInt32 (n : Nat) : Int :=
  if n % 2 ^ 32 < 2 ^ 31 then ((n % 2 ^ 32 : Nat) : Int) else ((n % 2 ^ 32 : Nat) : Int) - 2 ^ 32

/-- The `for (unsigned int screen = ...; screen < screens().size(); ++screen)` loop of
`MultiDockView::setWallpaper()`, from counter value `screen`. The counter is a 32-bit
unsigned integer, so `++screen` wraps; each evaluation of the loop condition uses one
unit of fuel and `none` means the fuel ran out. -/
def MultiDockView.setWallpaperLoop (w : Env) : Nat → Nat → Option (Bool × List Event)
  | 0, _ => none
  | fuel + 1, screen =>
    if screen < w.screens then
      let r := MultiDockView.setWallpaperInt w (toInt32 screen)
      if !r.1 then
        some (false, r.2)
      else
        (MultiDockView.setWallpaperLoop w fuel ((screen + 1) % 2 ^ 32)).map (fun rest => (rest.1, r.2 ++ rest.2))
    else
      some (true, [])

/-- `MultiDockView::setWallpaper()`. -/
def MultiDockView.setWallpaper (w : Env) (fuel : Nat) : Option (Bool × List Event) :=
  if !w.hasPager then
    some (false, [])
  else
    MultiDockView.setWallpaperLoop w fuel 0

/-- The content of `docks_`, a map from dock id to panel. Its declaration (in
`multi_dock_view.h`) is not among the sources; the code uses it through `clear`,
`operator[]`, `empty` and a range-for over its key-panel pairs. The content is listed by
ascending key, the canonical listing of a finite map. The order in which a range-for
visits the entries belongs to the container type, which the sources do not fix: it is a
parameter of `MultiDockView.show` and `MultiDockView.exit`. -/
abbrev Docks := List (Int × DockPanel)

/-- Canonical listing of a finite map: the keys are strictly ascending (hence distinct). -/
def Docks.WF (docks : Docks) : Prop :=
  (docks.map Prod.fst).Pairwise (· < ·)

/-- `docks_[dockId] = panel`: insert the entry at its place in key order, or replace
the panel of an existing key. -/
def Docks.assign : Docks → Int → DockPanel → Docks
  | [], dockId, panel => [(dockId, panel)]
  | (k, p) :: rest, dockId, panel =>
    if dockId < k then (dockId, panel) :: (k, p) :: rest
    else if dockId = k then (dockId, panel) :: rest
    else (k, p) :: Docks.assign rest dockId panel

/-- `MultiDockView::show()`: `show()` on every panel of `docks_`, then `setWallpaper()`.
The range-for visits the entries in the order `order docks_` of the container. Returns the
resulting `docks_` and the events. -/
def MultiDockView.show (w : Env) (order : Docks → List (Int × DockPanel)) (docks_ : Docks)
    (fuel : Nat) : Option (Docks × List Event) :=
  let shown := (order docks_).map (fun dock => Event.panelShow dock.2)
  (MultiDockView.setWallpaper w fuel).map (fun r => (docks_, shown ++ r.2))

/-- The `for (int dockId = ...; dockId <= model_->dockCount(); ++dockId)` loop of
`MultiDockView::loadData()`, from counter value `dockId`. The model counts in `Int`; it
agrees with the C++ `int` counter as long as `++dockId` does not overflow, that is for
`dockCount() < 2^31 - 1`. -/
def MultiDockView.loadDataLoop (dockCount : Int) (dockId : Int) (docks_ : Docks) :
    Docks × List Event :=
  if dockId ≤ dockCount then
    let r := MultiDockView.loadDataLoop dockCount (dockId + 1)
      (Docks.assign docks_ dockId (DockPanel.mk dockId))
    (r.1, Event.panelCreate dockId :: r.2)
  else
    (docks_, [])
termination_by (dockCount + 1 - dockId).toNat
decreasing_by omega

/-- `MultiDockView::loadData()`. The Welcome dialog is recorded as one event; slots that
run re-entrantly inside its nested event loop are outside this function. -/
def MultiDockView.loadData (w : Env) (_docks_ : Docks) : Docks × List Event :=
  let cleared : Docks := []
  let r := MultiDockView.loadDataLoop w.dockCount 1 cleared
  if r.1.isEmpty then
    (r.1, r.2 ++ [Event.welcomeDialogExec])
  else
    r

/-- The backend calls of a trace, in order: the `(screen, path)` arguments of every
`desktopEnv_->setWallpaper` call. -/
def backendCalls : List Event → List (Int × String)
  | [] => []
  | Event.backendSetWallpaper screen path :: rest => (screen, path) :: backendCalls rest
  | _ :: rest => backendCalls rest

/-- The texts of the warning boxes of a trace, in order. -/
def warnings : List Event → List String
  | [] => []
  | Event.warningBox _ text :: rest => text :: warnings rest
  | _ :: rest => warnings rest

/-- The `model_->wallpaper` queries of a trace, in order. -/
def wallpaperQueries : List Event → List (String × Int)
  | [] => []
  | Event.wallpaperQuery desktop screen :: rest => (desktop, screen) :: wallpaperQueries rest
  | _ :: rest => wallpaperQueries rest

/-- Reference form of the screen loop over an explicit list of screen indices: call
`setWallpaper(int)` on each index in list order and stop after the first call that
returns `false`. Used to reason about `MultiDockView.setWallpaperLoop`. -/
def scanScreens (w : Env) : List Nat → Bool × List Event
  | [] => (true, [])
  | s :: rest =>
    if !(MultiDockView.setWallpaperInt w (s : Int)).1 then
      (false, (MultiDockView.setWallpaperInt w (s : Int)).2)
    else
      ((scanScreens w rest).1,
        (MultiDockView.setWallpaperInt w (s : Int)).2 ++ (scanScreens w rest).2)

/-- Two screens on desktop "d1" with a pager: screen 0 has no wallpaper configured,
every other screen has "/b.png"; every file exists and the backend succeeds. -/
def envFirstScreenUnset : Env :=
  { hasPager := true, dockCount := 0,
    wallpaper := fun _ screen => if screen = 0 then "" else "/b.png",
    currentDesktop := "d1", screens := 2,
    fileExists := fun _ => true, backend := fun _ _ => true }

/-- Two screens on desktop "d1" with a pager: every screen has "/a.png", which exists,
and the backend succeeds. -/
def envAllSet : Env :=
  { hasPager := true, dockCount := 2,
    wallpaper := fun _ _ => "/a.png",
    currentDesktop := "d1", screens := 2,
    fileExists := fun _ => true, backend := fun _ _ => true }

/-- As `envAllSet`, but the model has no pager. -/
def envNoPager : Env :=
  { envAllSet with hasPager := false }

/-- As `envAllSet`, but no file exists. -/
def envMissingFile : Env :=
  { envAllSet with fileExists := fun _ => false }

/-- As `envAllSet`, but there is no screen. -/
def envNoScreens : Env :=
  { envAllSet with screens := 0 }

/-- A `docks_` map with the panels of docks 1 and 2. -/
def docksOneTwo : Docks :=
  [(1, DockPanel.mk 1), (2, DockPanel.mk 2)]

/-! ## `setWallpaper(int)` -/

theorem backendCalls_append (a b : List Event) :
    backendCalls (a ++ b) = backendCalls a ++ backendCalls b := by
  induction a with
  | nil => rfl
  | cons e a ih => cases e <;> simp [backendCalls, ih]

theorem warnings_append (a b : List Event) :
    warnings (a ++ b) = warnings a ++ warnings b := by
  induction a with
  | nil => rfl
  | cons e a ih => cases e <;> simp [warnings, ih]

theorem setWallpaperInt_of_existing (w : Env) (s : Int)
    (hp : w.hasPager = true)
    (hne : (w.wallpaper w.currentDesktop s).isEmpty = false)
    (hex : w.fileExists (w.wallpaper w.currentDesktop s) = true) :
    MultiDockView.setWallpaperInt w s =
      (w.backend s (w.wallpaper w.currentDesktop s),
        [Event.wallpaperQuery w.currentDesktop s,
         Event.backendSetWallpaper s (w.wallpaper w.currentDesktop s)]) := by
  simp [MultiDockView.setWallpaperInt, hp, hne, hex]

/-- C2: with a pager and a non-empty wallpaper naming an existing file for (current
desktop, `s`), `setWallpaper(s)` emits the wallpaper query and then one backend call with
arguments `(s, wallpaper)`, nothing else, and returns the backend's result. -/
theorem setWallpaperInt_calls_backend_once (w : Env) (s : Int)
    (hp : w.hasPager = true)
    (hne : (w.wallpaper w.currentDesktop s).isEmpty = false)
    (hex : w.fileExists (w.wallpaper w.currentDesktop s) = true) :
    (MultiDockView.setWallpaperInt w s).1 = w.backend s (w.wallpaper w.currentDesktop s)
    ∧ (MultiDockView.setWallpaperInt w s).2 =
        [Event.wallpaperQuery w.currentDesktop s,
         Event.backendSetWallpaper s (w.wallpaper w.currentDesktop s)]
    ∧ backendCalls (MultiDockView.setWallpaperInt w s).2 =
        [(s, w.wallpaper w.currentDesktop s)] := by
  rw [setWallpaperInt_of_existing w s hp hne hex]
  exact ⟨rfl, rfl, rfl⟩

/-- C7: the failure paths of `setWallpaper(screen)`. Without a pager it returns `false`
with an empty trace (no wallpaper query, no warning, no backend call). With a pager and
an empty wallpaper it returns `false` having only queried the wallpaper. With a pager
and a non-empty wallpaper whose file does not exist it returns `false` after the query
and exactly one warning "Failed to load wallpaper from: <path>", with no backend call. -/
theorem setWallpaperInt_failure_paths (w : Env) (s : Int) :
    (w.hasPager = false →
      MultiDockView.setWallpaperInt w s = (false, [])
      ∧ wallpaperQueries (MultiDockView.setWallpaperInt w s).2 = [])
    ∧ (w.hasPager = true → (w.wallpaper w.currentDesktop s).isEmpty = true →
      MultiDockView.setWallpaperInt w s = (false, [Event.wallpaperQuery w.currentDesktop s])
      ∧ warnings (MultiDockView.setWallpaperInt w s).2 = []
      ∧ backendCalls (MultiDockView.setWallpaperInt w s).2 = [])
    ∧ (w.hasPager = true → (w.wallpaper w.currentDesktop s).isEmpty = false →
        w.fileExists (w.wallpaper w.currentDesktop s) = false →
      MultiDockView.setWallpaperInt w s =
        (false, [Event.wallpaperQuery w.currentDesktop s,
                 Event.warningBox "Error"
                   ("Failed to load wallpaper from: " ++ w.wallpaper w.currentDesktop s)])
      ∧ warnings (MultiDockView.setWallpaperInt w s).2 =
          ["Failed to load wallpaper from: " ++ w.wallpaper w.currentDesktop s]
      ∧ backendCalls (MultiDockView.setWallpaperInt w s).2 = []) := by
  refine ⟨?_, ?_, ?_⟩
  · intro hp
    simp [MultiDockView.setWallpaperInt, hp, wallpaperQueries]
  · intro hp he
    simp [MultiDockView.setWallpaperInt, hp, he, warnings, backendCalls]
  · intro hp hne hex
    simp [MultiDockView.setWallpaperInt, hp, hne, hex, warnings, backendCalls]

/-! ## `checkPlatformSupported` -/

/-- C3: `checkPlatformSupported` returns `true` exactly when the lower-cased platform name
is "wayland", the Wayland native interface is non-null, and `WindowSystem::init` on its
display returns `true`; in every other case it returns `false`. -/
theorem checkPlatformSupported_true_iff (toLower : String → String) (init : Nat → Bool)
    (app : QApplication) :
    ((MultiDockView.checkPlatformSupported toLower init app).1 = true ↔
      (toLower app.platformName = "wayland"
        ∧ ∃ waylandApp, app.nativeInterface = some waylandApp
            ∧ init waylandApp.display = true))
    ∧ ((MultiDockView.checkPlatformSupported toLower init app).1 = false ↔
      ¬ (toLower app.platformName = "wayland"
        ∧ ∃ waylandApp, app.nativeInterface = some waylandApp
            ∧ init waylandApp.display = true)) := by
  unfold MultiDockView.checkPlatformSupported
  by_cases hname : toLower app.platformName = "wayland"
  · cases hnat : app.nativeInterface with
    | none => simp [hname]
    | some waylandApp => simp [hname]
  · simp [hname]

/-- C4: `WindowSystem::init` is invoked exactly when the lower-cased platform name is
"wayland" and the native interface is non-null (then once, on its display); the
"Unsupported Platform" critical box is the only critical box and is shown, once, exactly
when the lower-cased platform name is not "wayland" (so not when the platform is Wayland
and the native interface is missing or `init` fails). -/
theorem checkPlatformSupported_gating (toLower : String → String) (init : Nat → Bool)
    (app : QApplication) :
    (∀ display, Event.windowSystemInit display ∈
        (MultiDockView.checkPlatformSupported toLower init app).2 ↔
      (toLower app.platformName = "wayland"
        ∧ app.nativeInterface = some (QWaylandApplication.mk display)))
    ∧ (∀ display, (MultiDockView.checkPlatformSupported toLower init app).2.count
        (Event.windowSystemInit display) ≤ 1)
    ∧ (∀ title text, Event.criticalBox title text ∈
        (MultiDockView.checkPlatformSupported toLower init app).2 ↔
      (toLower app.platformName ≠ "wayland" ∧ title = "Unsupported Platform"
        ∧ text = "Crystal Dock 2.x only supports Wayland.\nFor X11, please use Crystal Dock 1.x"))
    ∧ (MultiDockView.checkPlatformSupported toLower init app).2.count
        (Event.criticalBox "Unsupported Platform" unsupportedPlatformText) =
      (if toLower app.platformName = "wayland" then 0 else 1) := by
  unfold MultiDockView.checkPlatformSupported
  by_cases hname : toLower app.platformName = "wayland"
  · cases hnat : app.nativeInterface with
    | none => simp [hname]
    | some waylandApp =>
      cases waylandApp with
      | mk d =>
        simp only [hname, ne_eq, not_true_eq_false, if_false, if_true]
        refine ⟨?_, ?_, ?_, ?_⟩
        · intro display
          simp
          exact eq_comm
        · intro display
          exact List.count_le_length _ _
        · intro title text
          simp
        · simp
  · simp [hname, unsupportedPlatformText]

/-! ## The screen loop of `setWallpaper()` -/

theorem toInt32_of_lt (n : Nat) (h : n < 2 ^ 31) : toInt32 n = (n : Int) := by
  unfold toInt32
  have hmod : n % 2 ^ 32 = n := Nat.mod_eq_of_lt (by omega)
  rw [hmod, if_pos h]

/-- As long as the screen count fits the `int` parameter, the wrapping counter never
wraps and the loop, given more fuel than screens remain, is the reference scan of the
remaining screen indices. -/
theorem setWallpaperLoop_eq_scan (w : Env) (h31 : w.screens ≤ 2 ^ 31) :
    ∀ fuel screen, screen ≤ w.screens → w.screens - screen < fuel →
      MultiDockView.setWallpaperLoop w fuel screen =
        some (scanScreens w (List.range' screen (w.screens - screen))) := by
  intro fuel
  induction fuel with
  | zero => intro screen _ h; omega
  | succ fuel ih =>
    intro screen hle hfuel
    unfold MultiDockView.setWallpaperLoop
    by_cases hlt : screen < w.screens
    · have h1 : toInt32 screen = (screen : Int) := toInt32_of_lt _ (by omega)
      have h2 : (screen + 1) % 2 ^ 32 = screen + 1 := Nat.mod_eq_of_lt (by omega)
      obtain ⟨m, hm⟩ : ∃ m, w.screens - screen = m + 1 := ⟨w.screens - screen - 1, by omega⟩
      have h3 : w.screens - (screen + 1) = m := by omega
      rw [hm, List.range'_succ]
      simp only [hlt, if_true, h1, h2, scanScreens]
      rw [ih (screen + 1) (by omega) (by omega), h3]
      split <;> simp
    · have h0 : w.screens - screen = 0 := by omega
      simp [hlt, h0, scanScreens]

theorem setWallpaper_eq_scan (w : Env) (fuel : Nat) (hp : w.hasPager = true)
    (h31 : w.screens ≤ 2 ^ 31) (hfuel : w.screens < fuel) :
    MultiDockView.setWallpaper w fuel = some (scanScreens w (List.range w.screens)) := by
  unfold MultiDockView.setWallpaper
  rw [setWallpaperLoop_eq_scan w h31 fuel 0 (Nat.zero_le _) (by omega)]
  simp [hp, List.range_eq_range']

theorem setWallpaper_no_pager (w : Env) (fuel : Nat) (hp : w.hasPager = false) :
    MultiDockView.setWallpaper w fuel = some (false, []) := by
  simp [MultiDockView.setWallpaper, hp]

theorem scanScreens_true_iff (w : Env) (l : List Nat) :
    (scanScreens w l).1 = true ↔
      ∀ s ∈ l, (MultiDockView.setWallpaperInt w (s : Int)).1 = true := by
  induction l with
  | nil => simp [scanScreens]
  | cons s rest ih =>
    unfold scanScreens
    by_cases hs : (MultiDockView.setWallpaperInt w (s : Int)).1 = true
    · simp [hs, ih]
    · simp [hs]

theorem scanScreens_append_ok (w : Env) (l1 l2 : List Nat)
    (hok : ∀ s ∈ l1, (MultiDockView.setWallpaperInt w (s : Int)).1 = true) :
    scanScreens w (l1 ++ l2) =
      ((scanScreens w l2).1,
        l1.flatMap (fun (s : Nat) => (MultiDockView.setWallpaperInt w (s : Int)).2)
          ++ (scanScreens w l2).2) := by
  induction l1 with
  | nil => simp
  | cons s rest ih =>
    have hs : (MultiDockView.setWallpaperInt w (s : Int)).1 = true := hok s (by simp)
    have hrest := ih (fun t ht => hok t (by simp [ht]))
    simp [scanScreens, hs, hrest]

theorem scanScreens_cons_fail (w : Env) (k : Nat) (l : List Nat)
    (hk : (MultiDockView.setWallpaperInt w (k : Int)).1 = false) :
    scanScreens w (k :: l) = (false, (MultiDockView.setWallpaperInt w (k : Int)).2) := by
  simp [scanScreens, hk]

theorem backendCalls_setWallpaperInt_sublist (w : Env) (s : Int) :
    List.Sublist (backendCalls (MultiDockView.setWallpaperInt w s).2)
      [(s, w.wallpaper w.currentDesktop s)] := by
  unfold MultiDockView.setWallpaperInt
  by_cases hp : w.hasPager = true
  · by_cases he : (w.wallpaper w.currentDesktop s).isEmpty = true
    · simp [hp, he, backendCalls]
    · by_cases hex : w.fileExists (w.wallpaper w.currentDesktop s) = true
      · simp [hp, he, hex, backendCalls]
      · simp [hp, he, hex, backendCalls]
  · simp [hp, backendCalls]

theorem warnings_setWallpaperInt_ok (w : Env) (s : Int)
    (hok : (MultiDockView.setWallpaperInt w s).1 = true) :
    warnings (MultiDockView.setWallpaperInt w s).2 = [] := by
  unfold MultiDockView.setWallpaperInt at hok ⊢
  by_cases hp : w.hasPager = true
  · by_cases he : (w.wallpaper w.currentDesktop s).isEmpty = true
    · simp [hp, he] at hok
    · by_cases hex : w.fileExists (w.wallpaper w.currentDesktop s) = true
      · simp [hp, he, hex, warnings]
      · simp [hp, he, hex] at hok
  · simp [hp] at hok

theorem warnings_setWallpaperInt_length (w : Env) (s : Int) :
    (warnings (MultiDockView.setWallpaperInt w s).2).length ≤ 1 := by
  unfold MultiDockView.setWallpaperInt
  by_cases hp : w.hasPager = true
  · by_cases he : (w.wallpaper w.currentDesktop s).isEmpty = true
    · simp [hp, he, warnings]
    · by_cases hex : w.fileExists (w.wallpaper w.currentDesktop s) = true
      · simp [hp, he, hex, warnings]
      · simp [hp, he, hex, warnings]
  · simp [hp, warnings]

theorem backendCalls_scan_sublist (w : Env) (l : List Nat) :
    List.Sublist (backendCalls (scanScreens w l).2)
      (l.map (fun (s : Nat) => ((s : Int), w.wallpaper w.currentDesktop (s : Int)))) := by
  induction l with
  | nil => simp [scanScreens, backendCalls]
  | cons s rest ih =>
    have hs := backendCalls_setWallpaperInt_sublist w (s : Int)
    unfold scanScreens
    by_cases hok : (MultiDockView.setWallpaperInt w (s : Int)).1 = true
    · simp only [hok, Bool.not_true, Bool.false_eq_true, if_false, backendCalls_append,
        List.map_cons]
      exact List.Sublist.append hs ih
    · simp only [Bool.not_eq_true] at hok
      simp only [hok, Bool.not_false, if_true, List.map_cons]
      exact hs.trans (by simp)

theorem warnings_scan_length (w : Env) (l : List Nat) :
    (warnings (scanScreens w l).2).length ≤ 1 := by
  induction l with
  | nil => simp [scanScreens, warnings]
  | cons s rest ih =>
    unfold scanScreens
    by_cases hok : (MultiDockView.setWallpaperInt w (s : Int)).1 = true
    · simp [hok, warnings_append, warnings_setWallpaperInt_ok w _ hok, ih]
    · simp only [Bool.not_eq_true] at hok
      simp only [hok, Bool.not_false, if_true]
      exact warnings_setWallpaperInt_length w _

theorem backendCalls_scan_le_failure (w : Env) (l : List Nat) (hl : l.Pairwise (· < ·))
    (k : Nat) (hk : k ∈ l) (hfail : (MultiDockView.setWallpaperInt w (k : Int)).1 = false) :
    ∀ c ∈ backendCalls (scanScreens w l).2, c.1 ≤ (k : Int) := by
  induction l with
  | nil => simp at hk
  | cons s rest ih =>
    have hs := backendCalls_setWallpaperInt_sublist w (s : Int)
    have hsk : s ≤ k := by
      rcases List.mem_cons.1 hk with h | h
      · omega
      · exact Nat.le_of_lt (List.rel_of_pairwise_cons hl h)
    have hhead : ∀ c ∈ backendCalls (MultiDockView.setWallpaperInt w (s : Int)).2,
        c.1 ≤ (k : Int) := by
      intro c hc
      have := hs.subset hc
      simp at this
      rw [this]
      show (s : Int) ≤ (k : Int)
      exact_mod_cast hsk
    unfold scanScreens
    by_cases hok : (MultiDockView.setWallpaperInt w (s : Int)).1 = true
    · have hne : k ≠ s := by
        intro h
        rw [h, hok] at hfail
        exact Bool.noConfusion hfail
      have hk2 : k ∈ rest := by
        rcases List.mem_cons.1 hk with h | h
        · exact absurd h hne
        · exact h
      simp only [hok, Bool.not_true, Bool.false_eq_true, if_false, backendCalls_append]
      intro c hc
      rcases List.mem_append.1 hc with h | h
      · exact hhead c h
      · exact ih (List.Pairwise.of_cons hl) hk2 c h
    · simp only [Bool.not_eq_true] at hok
      simp only [hok, Bool.not_false, if_true]
      exact hhead

theorem range_split (n k : Nat) (h : k < n) :
    List.range n = List.range k ++ k :: List.range' (k + 1) (n - (k + 1)) := by
  rw [List.range_eq_range', List.range_eq_range']
  have hn : n = ((n - (k + 1)) + 1) + k := by omega
  conv_lhs => rw [hn]
  rw [← List.range'_append_1, List.range'_succ]
  simp

theorem backendCalls_scan_range_pairwise (w : Env) (n : Nat) :
    ((backendCalls (scanScreens w (List.range n)).2).map Prod.fst).Pairwise (· < ·) := by
  have hsub := (backendCalls_scan_sublist w (List.range n)).map Prod.fst
  refine List.Pairwise.sublist hsub ?_
  rw [List.map_map]
  exact List.Pairwise.map _ (fun a b hab => by simpa using hab) (List.pairwise_lt_range n)

theorem backendCalls_scan_range_mem (w : Env) (n : Nat) :
    ∀ c ∈ backendCalls (scanScreens w (List.range n)).2,
      0 ≤ c.1 ∧ c.1 < (n : Int) ∧ c.2 = w.wallpaper w.currentDesktop c.1 := by
  intro c hc
  have hmem := (backendCalls_scan_sublist w (List.range n)).subset hc
  obtain ⟨s, hs, rfl⟩ := List.mem_map.1 hmem
  have hlt : s < n := List.mem_range.1 hs
  refine ⟨?_, ?_, rfl⟩
  · exact Int.ofNat_nonneg s
  · show (s : Int) < (n : Int)
    exact_mod_cast hlt

/-- The trace of a scan of `0 .. n-1` whose first failing screen is `k`: the screens
`0 .. k` are processed, in this order, and nothing after. -/
theorem scan_range_first_failure (w : Env) (n k : Nat) (hk : k < n)
    (hfail : (MultiDockView.setWallpaperInt w (k : Int)).1 = false)
    (hprev : ∀ j : Nat, j < k → (MultiDockView.setWallpaperInt w (j : Int)).1 = true) :
    scanScreens w (List.range n) =
      (false, (List.range (k + 1)).flatMap
        (fun (s : Nat) => (MultiDockView.setWallpaperInt w (s : Int)).2)) := by
  rw [range_split n k hk,
    scanScreens_append_ok w _ _ (fun s hs => hprev s (List.mem_range.1 hs)),
    scanScreens_cons_fail w k _ hfail, List.range_succ]
  simp

/-- The trace of a scan of `0 .. n-1` up to a screen `s` all of whose predecessors
succeed: it starts with the events of screens `0 .. s`. -/
theorem scan_range_reaches (w : Env) (n s : Nat) (hs : s < n)
    (hprev : ∀ j : Nat, j < s → (MultiDockView.setWallpaperInt w (j : Int)).1 = true) :
    ∃ after, (scanScreens w (List.range n)).2 =
      (List.range s).flatMap (fun (j : Nat) => (MultiDockView.setWallpaperInt w (j : Int)).2)
        ++ (MultiDockView.setWallpaperInt w (s : Int)).2 ++ after := by
  rw [range_split n s hs,
    scanScreens_append_ok w _ _ (fun j hj => hprev j (List.mem_range.1 hj))]
  by_cases hok : (MultiDockView.setWallpaperInt w (s : Int)).1 = true
  · exact ⟨(scanScreens w (List.range' (s + 1) (n - (s + 1)))).2, by simp [scanScreens, hok]⟩
  · simp only [Bool.not_eq_true] at hok
    exact ⟨[], by simp [scanScreens, hok]⟩

/-! ## `setWallpaper()` -/

/-- C8: `setWallpaper()` returns, and returns `true` exactly when the model has a pager
and `setWallpaper(s)` returns `true` for every screen index `s` below the screen count;
with a pager and zero screens it returns `true`; with no pager it returns `false` with
an empty trace (no backend call) for any number of screens. -/
theorem setWallpaper_true_iff (w : Env) (fuel : Nat) :
    (w.screens ≤ 2 ^ 31 → w.screens < fuel →
      ∃ r tr, MultiDockView.setWallpaper w fuel = some (r, tr)
        ∧ (r = true ↔ (w.hasPager = true
            ∧ ∀ s : Nat, s < w.screens →
                (MultiDockView.setWallpaperInt w (s : Int)).1 = true)))
    ∧ (w.hasPager = true → w.screens = 0 → 0 < fuel →
        MultiDockView.setWallpaper w fuel = some (true, []))
    ∧ (w.hasPager = false →
        ∃ tr, MultiDockView.setWallpaper w fuel = some (false, tr)
          ∧ backendCalls tr = []) := by
  refine ⟨?_, ?_, ?_⟩
  · intro h31 hfuel
    by_cases hp : w.hasPager = true
    · refine ⟨_, _, setWallpaper_eq_scan w fuel hp h31 hfuel, ?_⟩
      rw [scanScreens_true_iff]
      simp [hp, List.mem_range]
    · simp only [Bool.not_eq_true] at hp
      exact ⟨false, [], setWallpaper_no_pager w fuel hp, by simp [hp]⟩
  · intro hp h0 hfuel
    rw [setWallpaper_eq_scan w fuel hp (by omega) (by omega), h0]
    simp [scanScreens]
  · intro hp
    exact ⟨[], setWallpaper_no_pager w fuel hp, rfl⟩

/-- C9: `setWallpaper()` returns after processing the screens in ascending index order
up to and including the first screen whose `setWallpaper(k)` returns `false`: its trace is
that of screens `0 .. k` in this order, the backend calls have strictly ascending screen
indices (so at most one per screen), each for a screen below the screen count with that
screen's wallpaper, none for a screen above a failing one; hence at most as many backend
calls as screens, and at most one missing-file warning. -/
theorem setWallpaper_stops_at_first_failure (w : Env) (fuel : Nat)
    (h31 : w.screens ≤ 2 ^ 31) (hfuel : w.screens < fuel) :
    ∃ r tr, MultiDockView.setWallpaper w fuel = some (r, tr)
      ∧ ((backendCalls tr).map Prod.fst).Pairwise (· < ·)
      ∧ (∀ c ∈ backendCalls tr,
          0 ≤ c.1 ∧ c.1 < (w.screens : Int) ∧ c.2 = w.wallpaper w.currentDesktop c.1)
      ∧ (∀ k : Nat, k < w.screens →
          (MultiDockView.setWallpaperInt w (k : Int)).1 = false →
          ∀ c ∈ backendCalls tr, c.1 ≤ (k : Int))
      ∧ (∀ k : Nat, k < w.screens →
          (MultiDockView.setWallpaperInt w (k : Int)).1 = false →
          (∀ j : Nat, j < k → (MultiDockView.setWallpaperInt w (j : Int)).1 = true) →
          r = false ∧ tr = (List.range (k + 1)).flatMap
            (fun (s : Nat) => (MultiDockView.setWallpaperInt w (s : Int)).2))
      ∧ (backendCalls tr).length ≤ w.screens
      ∧ (warnings tr).length ≤ 1 := by
  by_cases hp : w.hasPager = true
  · refine ⟨_, _, setWallpaper_eq_scan w fuel hp h31 hfuel,
      backendCalls_scan_range_pairwise w _, backendCalls_scan_range_mem w _, ?_, ?_, ?_,
      warnings_scan_length w _⟩
    · intro k hk hfail
      exact backendCalls_scan_le_failure w _ (List.pairwise_lt_range _) k
        (List.mem_range.2 hk) hfail
    · intro k hk hfail hprev
      rw [scan_range_first_failure w _ k hk hfail hprev]
      exact ⟨rfl, rfl⟩
    · have hlen := (backendCalls_scan_sublist w (List.range w.screens)).length_le
      simpa using hlen
  · simp only [Bool.not_eq_true] at hp
    refine ⟨false, [], setWallpaper_no_pager w fuel hp, ?_⟩
    have hnil : ∀ s : Int, (MultiDockView.setWallpaperInt w s).2 = [] := by
      intro s
      simp [MultiDockView.setWallpaperInt, hp]
    simp [backendCalls, warnings, hnil]

/-- C1 (as stated, refuted): with a pager and two screens, screen 1 has a non-empty
wallpaper naming an existing file, yet `setWallpaper()` stops at screen 0 (no wallpaper
configured there) and makes no backend call at all, whatever the fuel. -/
theorem setWallpaper_skips_screen_after_failure :
    envFirstScreenUnset.hasPager = true
    ∧ 1 < envFirstScreenUnset.screens
    ∧ (envFirstScreenUnset.wallpaper envFirstScreenUnset.currentDesktop 1).isEmpty = false
    ∧ envFirstScreenUnset.fileExists
        (envFirstScreenUnset.wallpaper envFirstScreenUnset.currentDesktop 1) = true
    ∧ MultiDockView.setWallpaper envFirstScreenUnset 3
        = some (false, [Event.wallpaperQuery "d1" 0])
    ∧ (∀ fuel r tr, MultiDockView.setWallpaper envFirstScreenUnset fuel = some (r, tr) →
        ((1 : Int), "/b.png") ∉ backendCalls tr) := by
  refine ⟨rfl, by decide, by decide, rfl, by decide, ?_⟩
  intro fuel r tr h
  cases fuel with
  | zero => simp [MultiDockView.setWallpaper, MultiDockView.setWallpaperLoop,
      envFirstScreenUnset] at h
  | succ fuel =>
    have h2 : MultiDockView.setWallpaper envFirstScreenUnset (fuel + 1)
        = some (false, [Event.wallpaperQuery "d1" 0]) := by
      have he : ("" : String).isEmpty = true := rfl
      simp [MultiDockView.setWallpaper, MultiDockView.setWallpaperLoop,
        MultiDockView.setWallpaperInt, envFirstScreenUnset, toInt32, he]
    rw [h2] at h
    cases h
    simp [backendCalls]

/-- C1 (amended): with a pager, for every screen index `s` below the screen count whose
wallpaper is non-empty and names an existing file, and such that `setWallpaper(j)`
returned `true` for every screen `j < s`, one call to `setWallpaper()` returns and
invokes the backend with `(s, that path)`; the backend calls of the trace have strictly
ascending screen indices, so it does so once. -/
theorem setWallpaper_sets_screen_after_successes (w : Env) (fuel : Nat)
    (h31 : w.screens ≤ 2 ^ 31) (hfuel : w.screens < fuel)
    (hp : w.hasPager = true) (s : Nat) (hs : s < w.screens)
    (hne : (w.wallpaper w.currentDesktop (s : Int)).isEmpty = false)
    (hex : w.fileExists (w.wallpaper w.currentDesktop (s : Int)) = true)
    (hprev : ∀ j : Nat, j < s → (MultiDockView.setWallpaperInt w (j : Int)).1 = true) :
    ∃ r tr, MultiDockView.setWallpaper w fuel = some (r, tr)
      ∧ ((s : Int), w.wallpaper w.currentDesktop (s : Int)) ∈ backendCalls tr
      ∧ ((backendCalls tr).map Prod.fst).Pairwise (· < ·) := by
  refine ⟨_, _, setWallpaper_eq_scan w fuel hp h31 hfuel, ?_,
    backendCalls_scan_range_pairwise w w.screens⟩
  obtain ⟨after, hafter⟩ := scan_range_reaches w w.screens s hs hprev
  rw [hafter, backendCalls_append, backendCalls_append,
    setWallpaperInt_of_existing w (s : Int) hp hne hex]
  simp [backendCalls]

/-! ## `loadData`, `show`, `exit` -/

theorem assign_of_keys_lt (docks : Docks) (k : Int) (p : DockPanel)
    (h : ∀ e ∈ docks, e.1 < k) : Docks.assign docks k p = docks ++ [(k, p)] := by
  induction docks with
  | nil => rfl
  | cons e rest ih =>
    obtain ⟨k', p'⟩ := e
    have hk : k' < k := h (k', p') (by simp)
    have hrest := ih (fun e he => h e (by simp [he]))
    have h1 : ¬ k < k' := by omega
    have h2 : ¬ k = k' := by omega
    simp [Docks.assign, h1, h2, hrest]

theorem loadDataLoop_eq (dockCount : Int) :
    ∀ (n : Nat) (dockId : Int) (docks : Docks),
      (dockCount + 1 - dockId).toNat = n → (∀ e ∈ docks, e.1 < dockId) →
      MultiDockView.loadDataLoop dockCount dockId docks =
        (docks ++ (List.range n).map (fun (i : Nat) => (dockId + i, DockPanel.mk (dockId + i))),
          (List.range n).map (fun (i : Nat) => Event.panelCreate (dockId + i))) := by
  intro n
  induction n with
  | zero =>
    intro dockId docks hn _
    rw [MultiDockView.loadDataLoop]
    have hgt : ¬ dockId ≤ dockCount := by omega
    simp [hgt]
  | succ n ih =>
    intro dockId docks hn hlt
    rw [MultiDockView.loadDataLoop]
    have hle : dockId ≤ dockCount := by omega
    have hassign := assign_of_keys_lt docks dockId (DockPanel.mk dockId) hlt
    have hstep := ih (dockId + 1) (docks ++ [(dockId, DockPanel.mk dockId)]) (by omega)
      (by
        intro e he
        rcases List.mem_append.1 he with h | h
        · have := hlt e h
          omega
        · simp at h
          rw [h]
          show dockId < dockId + 1
          omega)
    simp only [hle, if_true, hassign, hstep, List.range_succ_eq_map, List.map_cons,
      List.map_map, List.append_assoc, List.singleton_append]
    refine Prod.ext ?_ ?_
    · simp only [Nat.cast_zero, add_zero, List.cons.injEq, true_and,
        List.append_cancel_left_eq]
      refine List.map_congr_left (fun i _ => ?_)
      simp only [Function.comp, Nat.succ_eq_add_one, Nat.cast_add, Nat.cast_one]
      have hi : dockId + 1 + (i : Int) = dockId + ((i : Int) + 1) := by omega
      rw [hi]
    · simp only [Nat.cast_zero, add_zero, List.cons.injEq, true_and]
      refine List.map_congr_left (fun i _ => ?_)
      simp only [Function.comp, Nat.succ_eq_add_one, Nat.cast_add, Nat.cast_one]
      have hi : dockId + 1 + (i : Int) = dockId + ((i : Int) + 1) := by omega
      rw [hi]

theorem loadData_eq (w : Env) (docks : Docks) :
    MultiDockView.loadData w docks =
      ((List.range w.dockCount.toNat).map
          (fun (i : Nat) => ((1 : Int) + i, DockPanel.mk ((1 : Int) + i))),
        (List.range w.dockCount.toNat).map (fun (i : Nat) => Event.panelCreate ((1 : Int) + i))
          ++ (if w.dockCount ≤ 0 then [Event.welcomeDialogExec] else [])) := by
  unfold MultiDockView.loadData
  have hloop := loadDataLoop_eq w.dockCount w.dockCount.toNat 1 [] (by omega) (by simp)
  simp only [hloop, List.nil_append]
  by_cases h0 : w.dockCount ≤ 0
  · have hn : w.dockCount.toNat = 0 := by omega
    simp [h0, hn]
  · obtain ⟨m, hm⟩ : ∃ m, w.dockCount.toNat = m + 1 := ⟨w.dockCount.toNat - 1, by omega⟩
    simp [h0, hm, List.range_succ_eq_map]

/-- C5: whatever `docks_` held before, after `loadData()` the keys of `docks_` are exactly
the dock ids `1 .. dockCount()` (none when `dockCount() <= 0`), listed in ascending order,
each mapped to the panel constructed for that same id; and the Welcome dialog is executed
if and only if `dockCount() <= 0`. -/
theorem loadData_docks (w : Env) (docks : Docks) :
    (∀ k : Int, k ∈ (MultiDockView.loadData w docks).1.map Prod.fst ↔
        (1 ≤ k ∧ k ≤ w.dockCount))
    ∧ Docks.WF (MultiDockView.loadData w docks).1
    ∧ (∀ e ∈ (MultiDockView.loadData w docks).1, e.2 = DockPanel.mk e.1)
    ∧ (∀ k : Int, Event.panelCreate k ∈ (MultiDockView.loadData w docks).2 ↔
        (1 ≤ k ∧ k ≤ w.dockCount))
    ∧ (w.dockCount ≤ 0 → (MultiDockView.loadData w docks).1 = [])
    ∧ (Event.welcomeDialogExec ∈ (MultiDockView.loadData w docks).2 ↔ w.dockCount ≤ 0) := by
  rw [loadData_eq]
  refine ⟨?_, ?_, ?_, ?_, ?_, ?_⟩
  · intro k
    simp only [List.map_map, List.mem_map, List.mem_range, Function.comp]
    constructor
    · rintro ⟨i, hi, rfl⟩
      omega
    · rintro ⟨h1, h2⟩
      exact ⟨(k - 1).toNat, by omega, by omega⟩
  · unfold Docks.WF
    rw [List.map_map]
    exact List.Pairwise.map _ (fun a b hab => by simp only [Function.comp]; omega)
      (List.pairwise_lt_range _)
  · intro e he
    obtain ⟨i, _, rfl⟩ := List.mem_map.1 he
    rfl
  · intro k
    simp only [List.mem_append, List.mem_map, List.mem_range]
    constructor
    · rintro (⟨i, hi, hk⟩ | h)
      · injection hk with hk
        omega
      · split at h <;> simp at h
    · rintro ⟨h1, h2⟩
      exact Or.inl ⟨(k - 1).toNat, by omega, by congr 1; omega⟩
  · intro h0
    have hn : w.dockCount.toNat = 0 := by omega
    simp [hn]
  · by_cases h0 : w.dockCount ≤ 0 <;> simp [h0]

/-- The success path of `setWallpaper(int)` on screen 1 of `envAllSet`. -/
theorem setWallpaperInt_calls_backend_once_witness :
    envAllSet.hasPager = true
    ∧ (envAllSet.wallpaper envAllSet.currentDesktop 1).isEmpty = false
    ∧ envAllSet.fileExists (envAllSet.wallpaper envAllSet.currentDesktop 1) = true
    ∧ (MultiDockView.setWallpaperInt envAllSet 1).1
        = envAllSet.backend 1 (envAllSet.wallpaper envAllSet.currentDesktop 1)
    ∧ backendCalls (MultiDockView.setWallpaperInt envAllSet 1).2
        = [(1, envAllSet.wallpaper envAllSet.currentDesktop 1)] :=
  have h := setWallpaperInt_calls_backend_once envAllSet 1 rfl (by decide) rfl
  ⟨rfl, by decide, rfl, h.1, h.2.2⟩

/-- The three failure paths of `setWallpaper(int)`: no pager, no wallpaper configured, missing file. -/
theorem setWallpaperInt_failure_paths_witness :
    (envNoPager.hasPager = false
      ∧ MultiDockView.setWallpaperInt envNoPager 0 = (false, []))
    ∧ (envFirstScreenUnset.hasPager = true
      ∧ (envFirstScreenUnset.wallpaper envFirstScreenUnset.currentDesktop 0).isEmpty = true
      ∧ MultiDockView.setWallpaperInt envFirstScreenUnset 0
          = (false, [Event.wallpaperQuery envFirstScreenUnset.currentDesktop 0]))
    ∧ (envMissingFile.hasPager = true
      ∧ (envMissingFile.wallpaper envMissingFile.currentDesktop 0).isEmpty = false
      ∧ envMissingFile.fileExists (envMissingFile.wallpaper envMissingFile.currentDesktop 0)
          = false
      ∧ warnings (MultiDockView.setWallpaperInt envMissingFile 0).2
          = ["Failed to load wallpaper from: "
              ++ envMissingFile.wallpaper envMissingFile.currentDesktop 0]) :=
  ⟨⟨rfl, ((setWallpaperInt_failure_paths envNoPager 0).1 rfl).1⟩,
    ⟨rfl, by decide,
      ((setWallpaperInt_failure_paths envFirstScreenUnset 0).2.1 rfl (by decide)).1⟩,
    ⟨rfl, by decide, rfl,
      ((setWallpaperInt_failure_paths envMissingFile 0).2.2 rfl (by decide) rfl).2.1⟩⟩

/-- The result of `setWallpaper()` with two screens, with no screen, and with no pager. -/
theorem setWallpaper_true_iff_witness :
    (envAllSet.screens ≤ 2 ^ 31 ∧ envAllSet.screens < 3
      ∧ ∃ r tr, MultiDockView.setWallpaper envAllSet 3 = some (r, tr)
        ∧ (r = true ↔ (envAllSet.hasPager = true
            ∧ ∀ s : Nat, s < envAllSet.screens →
                (MultiDockView.setWallpaperInt envAllSet (s : Int)).1 = true)))
    ∧ (envNoScreens.hasPager = true ∧ envNoScreens.screens = 0
      ∧ MultiDockView.setWallpaper envNoScreens 1 = some (true, []))
    ∧ (envNoPager.hasPager = false
      ∧ ∃ tr, MultiDockView.setWallpaper envNoPager 0 = some (false, tr)
          ∧ backendCalls tr = []) :=
  ⟨⟨by decide, by decide, (setWallpaper_true_iff envAllSet 3).1 (by decide) (by decide)⟩,
    ⟨rfl, rfl, (setWallpaper_true_iff envNoScreens 1).2.1 rfl rfl (by decide)⟩,
    ⟨rfl, (setWallpaper_true_iff envNoPager 0).2.2 rfl⟩⟩

/-- The loop of `setWallpaper()` on `envFirstScreenUnset`, whose screen 0 fails. -/
theorem setWallpaper_stops_at_first_failure_witness :
    envFirstScreenUnset.screens ≤ 2 ^ 31 ∧ envFirstScreenUnset.screens < 3
    ∧ ∃ r tr, MultiDockView.setWallpaper envFirstScreenUnset 3 = some (r, tr)
      ∧ (∀ k : Nat, k < envFirstScreenUnset.screens →
          (MultiDockView.setWallpaperInt envFirstScreenUnset (k : Int)).1 = false →
          ∀ c ∈ backendCalls tr, c.1 ≤ (k : Int))
      ∧ (backendCalls tr).length ≤ envFirstScreenUnset.screens
      ∧ (warnings tr).length ≤ 1 :=
  have h := setWallpaper_stops_at_first_failure envFirstScreenUnset 3 (by decide) (by decide)
  ⟨by decide, by decide,
    h.elim (fun r hr => hr.elim (fun tr htr =>
      ⟨r, tr, htr.1, htr.2.2.2.1, htr.2.2.2.2.2.1, htr.2.2.2.2.2.2⟩))⟩

/-- Screen 1 of `envAllSet` is set, screen 0 having succeeded. -/
theorem setWallpaper_sets_screen_after_successes_witness :
    envAllSet.screens ≤ 2 ^ 31 ∧ envAllSet.screens < 3 ∧ envAllSet.hasPager = true
    ∧ 1 < envAllSet.screens
    ∧ (envAllSet.wallpaper envAllSet.currentDesktop 1).isEmpty = false
    ∧ envAllSet.fileExists (envAllSet.wallpaper envAllSet.currentDesktop 1) = true
    ∧ (∀ j : Nat, j < 1 → (MultiDockView.setWallpaperInt envAllSet (j : Int)).1 = true)
    ∧ ∃ r tr, MultiDockView.setWallpaper envAllSet 3 = some (r, tr)
      ∧ ((1 : Int), "/a.png") ∈ backendCalls tr :=
  have hprev : ∀ j : Nat, j < 1 →
      (MultiDockView.setWallpaperInt envAllSet (j : Int)).1 = true := by
    intro j hj
    have h0 : j = 0 := by omega
    subst h0
    decide
  have h := setWallpaper_sets_screen_after_successes envAllSet 3 (by decide) (by decide) rfl 1
    (by decide) (by decide) rfl hprev
  ⟨by decide, by decide, rfl, by decide, by decide, rfl, hprev,
    h.elim (fun r hr => hr.elim (fun tr htr => ⟨r, tr, htr.1, htr.2.1⟩))⟩

/-- `loadData()` with no dock configured and with two docks configured. -/
theorem loadData_docks_witness :
    envFirstScreenUnset.dockCount ≤ 0
    ∧ (MultiDockView.loadData envFirstScreenUnset docksOneTwo).1 = []
    ∧ Event.welcomeDialogExec ∈ (MultiDockView.loadData envFirstScreenUnset docksOneTwo).2
    ∧ (∀ k : Int, k ∈ (MultiDockView.loadData envAllSet docksOneTwo).1.map Prod.fst ↔
        (1 ≤ k ∧ k ≤ envAllSet.dockCount)) :=
  have h := loadData_docks envFirstScreenUnset docksOneTwo
  ⟨by decide, h.2.2.2.2.1 (by decide), h.2.2.2.2.2.2 (by decide),
    (loadData_docks envAllSet docksOneTwo).1⟩

end crystaldock
